import Mathlib

/-!
Verification of the lighting-control core of the Toolstation repository.

This file is a shallow embedding, in Lean 4, of the Python modules
`src/dmx_controller.py`, `src/dmx_sender.py`, `src/fixture_models.py`,
`src/fixture_manager.py`, `src/scene_manager.py` and `src/chaser_manager.py`,
together with theorems settling the specified properties of those modules.

Modelling conventions:
* Python `int` is embedded as `Int`; byte values stored in `bytearray`s are
  `Nat` (they are kept in `0..255` by the code's own checks).
* A raised exception is embedded as an error result (`Except Unit _` or a
  dedicated result type); code that returns `None` on failure is embedded
  with `Option`.
* Python `bytearray` objects are mutable heap objects that can be aliased;
  they are embedded as an explicit heap (`List ByteArr`) addressed by `Ref`,
  and object attributes holding a bytearray hold a `Ref`.  This is needed to
  express the reference/copy behaviour of the scene store faithfully.
* Python dicts keep insertion order; they are embedded as association lists,
  with new keys appended at the end.
* `uuid.uuid4()` fresh-id generation is embedded as a counter (`next_id`).
* Background threads are embedded by making the loop body explicit and
  iterating it a chosen number of times (the observation length).
-/

namespace Toolstation

/-! ## Transmission Engine buffer (`dmx_controller.py`, `dmx_sender.py`)

The universe buffer of `DMXController` is `self._dmx_values = bytearray(512)`
(channel 1 at index 0).  `DMXSender` keeps `self._dmx_buffer`, a 513-byte
array whose index 0 is the DMX start code and whose index `c` is channel `c`.
A mutation either returns normally or raises a range `ValueError`; in the
latter case the buffer is in whatever state it had reached when the check
failed, which we record in the result. -/

/-- Result of a buffer mutation: normal return, or a range `ValueError`
raised with the buffer in the state it had at the moment of the raise. -/
inductive BufResult where
  | ok (buf : List Nat)
  | rangeError (buf : List Nat)
deriving DecidableEq

/-- The write loop of `DMXController.set_channels` (dmx_controller.py,
lines 65-69): `for i, val in enumerate(values)`, each value is range-checked
only when the loop reaches it, and earlier values have already been written
into the buffer (`self._dmx_values[start_channel + i - 1] = val`). -/
def setChannelsLoop (buf : List Nat) (start_channel : Int) (values : List Int) (i : Nat) : BufResult :=
  match values with
  | [] => .ok buf
  | val :: rest =>
      if 0 ≤ val ∧ val ≤ 255 then
        setChannelsLoop (buf.set (start_channel + (i : Int) - 1).toNat val.toNat) start_channel rest (i + 1)
      else .rangeError buf

/-- `DMXController.set_channels` (dmx_controller.py, lines 57-69): the start
channel and total range are checked before any write, each value only inside
the write loop. -/
def DMXController.set_channels (buf : List Nat) (start_channel : Int) (values : List Int) : BufResult :=
  if ¬ (1 ≤ start_channel ∧ start_channel ≤ 512) then .rangeError buf
  else if values.isEmpty then .ok buf
  else if start_channel + (values.length : Int) - 1 > 512 then .rangeError buf
  else setChannelsLoop buf start_channel values 0

/-- The write loop of `DMXSender.set_channels` (dmx_sender.py, lines 91-94):
the 513-byte frame buffer is indexed 1-based (`self._dmx_buffer[start_channel + i]`,
index 0 being the start code), and each value is range-checked only when the
loop reaches it. -/
def senderSetChannelsLoop (buf : List Nat) (start_channel : Int) (values : List Int) (i : Nat) : BufResult :=
  match values with
  | [] => .ok buf
  | val :: rest =>
      if 0 ≤ val ∧ val ≤ 255 then
        senderSetChannelsLoop (buf.set (start_channel + (i : Int)).toNat val.toNat) start_channel rest (i + 1)
      else .rangeError buf

/-- `DMXSender.set_channels` (dmx_sender.py, lines 84-94). -/
def DMXSender.set_channels (buf : List Nat) (start_channel : Int) (values : List Int) : BufResult :=
  if ¬ (1 ≤ start_channel ∧ start_channel ≤ 512) then .rangeError buf
  else if values.isEmpty then .ok buf
  else if start_channel + (values.length : Int) - 1 > 512 then .rangeError buf
  else senderSetChannelsLoop buf start_channel values 0

/-- Overlay helper (specification side): write the byte list `vs` into `buf`
at consecutive positions starting at index `idx`. -/
def overlayFrom (buf : List Nat) (idx : Nat) (vs : List Nat) : List Nat :=
  match vs with
  | [] => buf
  | v :: rest => overlayFrom (buf.set idx v) (idx + 1) rest

/-- The all-zero 512-channel universe buffer (`bytearray(512)`). -/
def zeros512 : List Nat := List.replicate 512 0

/-! ## Chaser engine (`chaser_manager.py`)

A `Chaser` owns a background thread running `Chaser._run`.  The thread is
embedded by `chaserIterate`, which performs a chosen number of iterations of
the `while self.is_running` loop body and records which scene id was selected
(and applied, when it resolves) at each iteration. -/

/-- State of a `Chaser` (chaser_manager.py, lines 11-19).  `has_thread`
records whether `self.thread` holds a thread object; scene ids are the
embedded counter ids. -/
structure Chaser where
  id : Nat
  name : String
  scene_ids : List Nat
  step_duration : Nat
  is_running : Bool
  has_thread : Bool
  current_step : Nat
deriving DecidableEq

/-- `Chaser.__init__` (chaser_manager.py, lines 12-19). -/
def Chaser.new (id : Nat) (name : String) (scene_ids : List Nat) (step_duration : Nat) : Chaser :=
  { id := id, name := name, scene_ids := scene_ids, step_duration := step_duration,
    is_running := false, has_thread := false, current_step := 0 }

/-- `Chaser.start` (chaser_manager.py, lines 21-27): a no-op when
`is_running` is already true; otherwise sets the flag and spawns the
`_run` thread. -/
def Chaser.start (c : Chaser) : Chaser :=
  if c.is_running then c
  else { c with is_running := true, has_thread := true }

/-- `Chaser.stop` (chaser_manager.py, lines 29-33): clears the flag, joins
the thread and drops it. -/
def Chaser.stop (c : Chaser) : Chaser :=
  { c with is_running := false, has_thread := false }

/-- The loop of `Chaser._run` (chaser_manager.py, lines 35-48), iterated a
chosen number `n` of times.  Each iteration: if `is_running` is false the
while-condition ends the loop; if the scene list is empty the body `break`s
(leaving `is_running` untouched); otherwise the scene id at `current_step`
is selected (and applied when it resolves), `current_step` advances by one
modulo the list length, and the task sleeps `step_duration`.  The returned
list records the scene id selected at each executed iteration.  `current_step`
starts at 0 and stays below the list length, so the Python list indexing
`self.scene_ids[self.current_step]` never faults; it is embedded with `getD`. -/
def chaserIterate : Nat → Chaser → Chaser × List Nat
  | 0, c => (c, [])
  | n + 1, c =>
      if ¬ c.is_running then (c, [])
      else if c.scene_ids.isEmpty then (c, [])
      else
        ((chaserIterate n { c with current_step := (c.current_step + 1) % c.scene_ids.length }).1,
         c.scene_ids.getD c.current_step 0 ::
           (chaserIterate n { c with current_step := (c.current_step + 1) % c.scene_ids.length }).2)

/-- A chaser constructed with an empty scene list, used to evaluate the code
on the empty-scene-list scenario. -/
def emptyChaser : Chaser := Chaser.new 0 "empty" [] 1

/-- A freshly started three-scene chaser, used to evaluate the scheduling of
`Chaser._run` on a concrete input. -/
def demoChaser : Chaser := Chaser.start (Chaser.new 1 "demo" [10, 20, 30] 1)

/-! ## Fixture definition records and parsing (`fixture_models.py`)

The parser input is the JSON-decoded record.  In the raw record structures,
`some x` means the key is present with a well-typed value and `none` that it
is absent; for `total_channels` and `dmx_channel_offset`, `none` also covers
a present value that `int(...)` cannot convert, since both raise the same
`ValueError`.  Shape errors (a non-list `channels`, a non-dict entry) raise
before any of the checks studied here and are not distinguished further. -/

/-- Result of `FixtureChannelCapability.__init__` (fixture_models.py, lines 5-16). -/
structure FixtureChannelCapability where
  description : String
  value : Option Int
  range_min : Option Int
  range_max : Option Int
deriving DecidableEq

/-- Result of `FixtureChannel.__init__` (fixture_models.py, lines 24-34). -/
structure FixtureChannel where
  name : String
  type : String
  dmx_channel_offset : Int
  default_value : Int
  min_value : Int
  max_value : Int
  capabilities : List FixtureChannelCapability
deriving DecidableEq

/-- Result of `FixtureDefinition.__init__` (fixture_models.py, lines 39-49). -/
structure FixtureDefinition where
  name : String
  manufacturer : String
  type : String
  total_channels : Int
  channels : List FixtureChannel
  schema_version : String
  filepath : Option String
deriving DecidableEq

/-- A raw capability entry of the JSON record. -/
structure RawCapability where
  description : Option String
  value : Option Int
  range_min : Option Int
  range_max : Option Int
deriving DecidableEq

/-- A raw channel entry of the JSON record.  `capabilities` models
`ch_data.get("capabilities", [])`: an absent key reads as `[]`. -/
structure RawChannel where
  name : Option String
  type : Option String
  dmx_channel_offset : Option Int
  default_value : Option Int
  min_value : Option Int
  max_value : Option Int
  capabilities : List RawCapability
deriving DecidableEq

/-- A raw fixture definition record.  `channels = none` models the key being
absent from the JSON object (`data.get("channels") is None`). -/
structure RawFixtureData where
  schema_version : Option String
  name : Option String
  manufacturer : Option String
  type : Option String
  total_channels : Option Int
  channels : Option (List RawChannel)
deriving DecidableEq

/-- Parsing of one capability entry: the required `description` key plus the
`FixtureChannelCapability.__init__` exclusivity checks (fixture_models.py,
lines 5-16 and 80-93): a fixed `value` or both range bounds, never both and
never neither. -/
def parseCapability (c : RawCapability) : Except Unit FixtureChannelCapability :=
  match c.description with
  | none => .error ()
  | some d =>
      if c.value = none ∧ (c.range_min = none ∨ c.range_max = none) then .error ()
      else if c.value ≠ none ∧ (c.range_min ≠ none ∨ c.range_max ≠ none) then .error ()
      else .ok { description := d, value := c.value,
                 range_min := c.range_min, range_max := c.range_max }

/-- The capability parse loop (fixture_models.py, lines 79-93): entries are
parsed in order and the first failure aborts the record. -/
def parseCapabilityList : List RawCapability → Except Unit (List FixtureChannelCapability)
  | [] => .ok []
  | c :: rest =>
      match parseCapability c with
      | .error e => .error e
      | .ok cap =>
          match parseCapabilityList rest with
          | .error e => .error e
          | .ok caps => .ok (cap :: caps)

/-- Parsing of one channel entry (fixture_models.py, lines 71-108):
capabilities first, then the required `name` and `dmx_channel_offset` keys;
`type`, `default_value`, `min_value`, `max_value` fall back to
"generic"/0/0/255. -/
def parseChannel (ch : RawChannel) : Except Unit FixtureChannel :=
  match parseCapabilityList ch.capabilities with
  | .error e => .error e
  | .ok caps =>
      match ch.name, ch.dmx_channel_offset with
      | some n, some off =>
          .ok { name := n, type := ch.type.getD "generic", dmx_channel_offset := off,
                default_value := ch.default_value.getD 0, min_value := ch.min_value.getD 0,
                max_value := ch.max_value.getD 255, capabilities := caps }
      | _, _ => .error ()

/-- The channel parse loop (fixture_models.py, lines 71-108). -/
def parseChannelList : List RawChannel → Except Unit (List FixtureChannel)
  | [] => .ok []
  | ch :: rest =>
      match parseChannel ch with
      | .error e => .error e
      | .ok c =>
          match parseChannelList rest with
          | .error e => .error e
          | .ok cs => .ok (c :: cs)

/-- `FixtureDefinition.from_json_file` after file reading and JSON decoding
(fixture_models.py, lines 54-144): parse the channel entries, require a
non-empty `name` (`if not fixture_name`), require an integer
`total_channels`, then validate: when the `channels` key is present its
parsed length must equal `total_channels`; when it is absent,
`total_channels` must exceed 0. -/
def fixture_definition_from_data (filepath : Option String) (data : RawFixtureData) :
    Except Unit FixtureDefinition :=
  match parseChannelList (data.channels.getD []) with
  | .error e => .error e
  | .ok parsed_channels =>
      match data.name with
      | none => .error ()
      | some fixture_name =>
          if fixture_name = "" then .error ()
          else
            match data.total_channels with
            | none => .error ()
            | some total_channels =>
                if data.channels ≠ none then
                  if (parsed_channels.length : Int) ≠ total_channels then .error ()
                  else .ok { name := fixture_name,
                             manufacturer := data.manufacturer.getD "Unknown",
                             type := data.type.getD "Generic",
                             total_channels := total_channels, channels := parsed_channels,
                             schema_version := data.schema_version.getD "1.0",
                             filepath := filepath }
                else if total_channels ≤ 0 then .error ()
                else .ok { name := fixture_name,
                           manufacturer := data.manufacturer.getD "Unknown",
                           type := data.type.getD "Generic",
                           total_channels := total_channels, channels := parsed_channels,
                           schema_version := data.schema_version.getD "1.0",
                           filepath := filepath }

/-- A record whose `channels` key is present with an empty list and whose
`total_channels` is 0. -/
def emptyZeroRecord : RawFixtureData :=
  { schema_version := none, name := some "Empty Fixture", manufacturer := some "Test Co",
    type := none, total_channels := some 0, channels := some [] }

/-- A record that states 2 total channels but defines only one channel entry. -/
def mismatchRecord : RawFixtureData :=
  { schema_version := none, name := some "Mismatch Fixture", manufacturer := none,
    type := none, total_channels := some 2,
    channels := some [{ name := some "Channel 1", type := some "generic",
                        dmx_channel_offset := some 0, default_value := none,
                        min_value := none, max_value := none, capabilities := [] }] }

/-- A record with no `channels` key and `total_channels` 0. -/
def absentZeroRecord : RawFixtureData :=
  { schema_version := none, name := some "Zero Bank", manufacturer := none,
    type := none, total_channels := some 0, channels := none }

/-! ## Patch manager and scene store (`fixture_manager.py`, `scene_manager.py`)

Python `bytearray` objects are mutable and shared by reference, which is
essential to the scene store's behaviour, so they live in an explicit heap:
a `Ref` is an index into the list of allocated byte arrays, and every
attribute that holds a bytearray in Python holds a `Ref` here.  Reading an
unallocated reference never happens in the embedded scenarios; `heapGet`
totalises it with `[]`. -/

/-- Decidable equality of `Except` results, used to evaluate the embedded
operations on concrete inputs. -/
instance {e a : Type} [DecidableEq e] [DecidableEq a] : DecidableEq (Except e a)
  | .error x, .error y => decidable_of_iff (x = y) (by simp)
  | .error _, .ok _ => isFalse (by simp)
  | .ok _, .error _ => isFalse (by simp)
  | .ok x, .ok y => decidable_of_iff (x = y) (by simp)

abbrev Ref := Nat

abbrev ByteArr := List Nat

abbrev Heap := List ByteArr

/-- Read the byte array behind a reference. -/
def heapGet (heap : Heap) (r : Ref) : ByteArr := heap.getD r []

/-- Replace the byte array behind a reference (in-place bytearray mutation). -/
def heapSet (heap : Heap) (r : Ref) (a : ByteArr) : Heap := heap.set r a

/-- Ordered-dict lookup (`d.get(k)` / `d[k]`), on the association list that
embeds a Python dict. -/
def dictFind {κ α : Type} [BEq κ] (l : List (κ × α)) (k : κ) : Option α :=
  (l.find? (fun p => p.1 == k)).map (fun p => p.2)

/-- A live `PatchedFixture` (fixture_manager.py, lines 13-34).  `id` is the
embedded `uuid.uuid4()` counter value; `channel_values` is the reference to
its byte array. -/
structure PatchedFixture where
  id : Nat
  definition : FixtureDefinition
  name : String
  start_address : Int
  channel_values : Ref
deriving DecidableEq

/-- The seeding loop of `PatchedFixture.__init__` (fixture_manager.py,
lines 28-33): `for i, ch_def in enumerate(definition.channels)`, each default
value is written at offset `i` when `i < len(self.channel_values)`; a Python
bytearray item assignment raises `ValueError` when the value is outside
0..255, which aborts the constructor. -/
def seedChannelValues (total : Nat) : List FixtureChannel → Nat → ByteArr → Except Unit ByteArr
  | [], _, arr => .ok arr
  | ch :: rest, i, arr =>
      if i < total then
        if 0 ≤ ch.default_value ∧ ch.default_value ≤ 255 then
          seedChannelValues total rest (i + 1) (arr.set i ch.default_value.toNat)
        else .error ()
      else seedChannelValues total rest (i + 1) arr

/-- `PatchedFixture.__init__` (fixture_manager.py, lines 14-34): the address
bound check `1 <= start_address <= 513 - total_channels` raises `ValueError`
when violated; `bytearray(total_channels)` raises for a negative count; the
fresh byte array is allocated at the end of the heap and seeded with the
channel default values. -/
def PatchedFixture.init (definition : FixtureDefinition) (start_address : Int)
    (name : Option String) (fresh_id : Nat) (heap : Heap) :
    Except Unit (PatchedFixture × Heap) :=
  if ¬ (1 ≤ start_address ∧ start_address ≤ 513 - definition.total_channels) then .error ()
  else if definition.total_channels < 0 then .error ()
  else
    match seedChannelValues definition.total_channels.toNat definition.channels 0
        (List.replicate definition.total_channels.toNat 0) with
    | .error e => .error e
    | .ok arr =>
        .ok ({ id := fresh_id, definition := definition, name := name.getD definition.name,
               start_address := start_address, channel_values := heap.length },
             heap ++ [arr])

/-- `PatchedFixture.get_channel_value_by_offset` (fixture_manager.py,
lines 41-44): the offset is bounds-checked against
`definition.total_channels`, but the read indexes the byte array itself —
an array shorter than `total_channels` raises `IndexError` on a valid
offset. -/
def PatchedFixture.get_channel_value_by_offset (pf : PatchedFixture) (heap : Heap)
    (fixture_channel_offset : Int) : Except Unit Nat :=
  if ¬ (0 ≤ fixture_channel_offset ∧
        fixture_channel_offset < pf.definition.total_channels) then .error ()
  else
    match (heapGet heap pf.channel_values)[fixture_channel_offset.toNat]? with
    | some v => .ok v
    | none => .error ()

/-- `PatchedFixture.set_channel_value_by_offset` (fixture_manager.py,
lines 46-51): offset checked against `definition.total_channels`, value
checked against 0..255, then the write indexes the byte array itself
(`IndexError` when it is shorter than `total_channels`). -/
def PatchedFixture.set_channel_value_by_offset (pf : PatchedFixture) (heap : Heap)
    (fixture_channel_offset : Int) (value : Int) : Except Unit Heap :=
  if ¬ (0 ≤ fixture_channel_offset ∧
        fixture_channel_offset < pf.definition.total_channels) then .error ()
  else if ¬ (0 ≤ value ∧ value ≤ 255) then .error ()
  else
    if fixture_channel_offset.toNat < (heapGet heap pf.channel_values).length then
      .ok (heapSet heap pf.channel_values
            ((heapGet heap pf.channel_values).set fixture_channel_offset.toNat value.toNat))
    else .error ()

/-- The loop of `PatchedFixture.get_dmx_values` (fixture_manager.py,
lines 53-60): `for i in range(total_channels)`, stop (`break`) once the
absolute address exceeds 512, otherwise record
`(start_address + i, channel_values[i])`; the read
`self.channel_values[i]` raises `IndexError` when the array is shorter.
The first `Nat` argument is the current loop index, the second the
remaining iteration count. -/
def getDmxValuesLoop (start_address : Int) (arr : ByteArr) : Nat → Nat → Except Unit (List (Int × Nat))
  | _, 0 => .ok []
  | i, n + 1 =>
      if start_address + (i : Int) > 512 then .ok []
      else
        match arr[i]? with
        | none => .error ()
        | some v =>
            match getDmxValuesLoop start_address arr (i + 1) n with
            | .error e => .error e
            | .ok rest => .ok ((start_address + (i : Int), v) :: rest)

/-- `PatchedFixture.get_dmx_values` (fixture_manager.py, lines 53-60):
the per-fixture map from absolute 1-based DMX address to byte value. -/
def PatchedFixture.get_dmx_values (pf : PatchedFixture) (heap : Heap) :
    Except Unit (List (Int × Nat)) :=
  getDmxValuesLoop pf.start_address (heapGet heap pf.channel_values) 0
    pf.definition.total_channels.toNat

/-- A `Scene` (scene_manager.py, lines 9-13): `fixture_states` maps a
fixture instance id to a *reference* to a byte array — `create_scene`
stores `fixture.channel_values` itself, not a copy. -/
structure Scene where
  id : Nat
  name : String
  fixture_states : List (Nat × Ref)
deriving DecidableEq

/-- Combined state of one `FixtureManager` and one `SceneManager` instance
sharing the Python object heap: the loaded definitions dict (keyed by file
path), the live patch dict, the scenes dict, and the fresh-id counter that
embeds `uuid.uuid4()`. -/
structure SysState where
  heap : Heap
  fixture_directory : String
  fixture_definitions : List (String × FixtureDefinition)
  patched_fixtures : List (Nat × PatchedFixture)
  scenes : List (Nat × Scene)
  next_id : Nat
deriving DecidableEq

/-- The state right after construction of the managers: definitions loaded
from the fixture directory, nothing patched, no scene captured. -/
def initialState (fixture_directory : String) (defs : List (String × FixtureDefinition)) :
    SysState :=
  { heap := [], fixture_directory := fixture_directory, fixture_definitions := defs,
    patched_fixtures := [], scenes := [], next_id := 0 }

/-- Python's `str.lower()`, embedded character-wise so that it evaluates
inside the kernel. -/
def strLower (s : String) : String := ⟨s.data.map Char.toLower⟩

/-- `FixtureManager.get_definition_by_identity` (fixture_manager.py,
lines 110-131): exact key match, then the identifier joined to the fixture
directory, then case-insensitive name match, then case-insensitive
"manufacturer - name" match.  `os.path.normpath` is embedded as the
identity on the pure string keys and `os.path.join` as "/"-concatenation. -/
def get_definition_by_identity (st : SysState) (identifier : String) :
    Option FixtureDefinition :=
  match dictFind st.fixture_definitions identifier with
  | some d => some d
  | none =>
      match dictFind st.fixture_definitions (st.fixture_directory ++ "/" ++ identifier) with
      | some d => some d
      | none =>
          match (st.fixture_definitions.map (fun p => p.2)).find?
              (fun d => strLower d.name == strLower identifier) with
          | some d => some d
          | none =>
              (st.fixture_definitions.map (fun p => p.2)).find?
                (fun d => strLower (d.manufacturer ++ " - " ++ d.name) == strLower identifier)

/-- The interval intersection test of `FixtureManager.add_fixture_to_patch`
(fixture_manager.py, line 150): conflict when
`start_address <= pf_end_address and new_fixture_end_address >= pf.start_address`. -/
def conflictsWith (start_address new_fixture_end_address : Int) (pf : PatchedFixture) : Bool :=
  decide (start_address ≤ pf.start_address + pf.definition.total_channels - 1) &&
  decide (new_fixture_end_address ≥ pf.start_address)

/-- `FixtureManager.add_fixture_to_patch` (fixture_manager.py,
lines 134-163).  Every failure — unresolvable definition, end address
beyond 512, address conflict, or a `ValueError` raised by the
`PatchedFixture` constructor — prints a diagnostic and returns `None`,
leaving the manager state unchanged; on success the new fixture is
registered under its fresh id and returned. -/
def add_fixture_to_patch (st : SysState) (definition_identifier : String)
    (start_address : Int) (custom_name : Option String) :
    Option PatchedFixture × SysState :=
  match get_definition_by_identity st definition_identifier with
  | none => (none, st)
  | some definition =>
      if start_address + definition.total_channels - 1 > 512 then (none, st)
      else if st.patched_fixtures.any (fun p =>
          conflictsWith start_address (start_address + definition.total_channels - 1) p.2) then
        (none, st)
      else
        match PatchedFixture.init definition start_address custom_name st.next_id st.heap with
        | .error _ => (none, st)
        | .ok r =>
            (some r.1, { st with heap := r.2,
                                 patched_fixtures := st.patched_fixtures ++ [(r.1.id, r.1)],
                                 next_id := st.next_id + 1 })

/-- `FixtureManager.remove_fixture_from_patch` (fixture_manager.py,
lines 165-171). -/
def remove_fixture_from_patch (st : SysState) (fixture_id : Nat) : Bool × SysState :=
  if (dictFind st.patched_fixtures fixture_id).isSome then
    (true, { st with patched_fixtures :=
               st.patched_fixtures.filter (fun p => !(p.1 == fixture_id)) })
  else (false, st)

/-- `FixtureManager.get_patched_fixture_by_id` (fixture_manager.py,
lines 173-174). -/
def get_patched_fixture_by_id (st : SysState) (fixture_id : Nat) : Option PatchedFixture :=
  dictFind st.patched_fixtures fixture_id

/-- Stable insertion, used to embed Python's stable `sorted` by
`start_address` (fixture_manager.py, line 177): an element is placed after
all elements with a strictly smaller key and, among equal keys, after none
that preceded it. -/
def insertByStart (pf : PatchedFixture) : List PatchedFixture → List PatchedFixture
  | [] => [pf]
  | q :: rest =>
      if q.start_address < pf.start_address then q :: insertByStart pf rest
      else pf :: q :: rest

/-- Stable sort by `start_address`. -/
def sortByStart (l : List PatchedFixture) : List PatchedFixture :=
  l.foldr insertByStart []

/-- `FixtureManager.get_all_patched_fixtures` (fixture_manager.py,
lines 176-177): the live fixtures sorted by start address. -/
def get_all_patched_fixtures (st : SysState) : List PatchedFixture :=
  sortByStart (st.patched_fixtures.map (fun p => p.2))

/-- The snapshot taken by `SceneManager.create_scene` (scene_manager.py,
lines 46-48): `fixture_states[fixture.id] = fixture.channel_values` — the
stored value is the live fixture's byte array itself (its reference), not
a copy. -/
def capturedStates (st : SysState) : List (Nat × Ref) :=
  (get_all_patched_fixtures st).map (fun f => (f.id, f.channel_values))

/-- `SceneManager.create_scene` (scene_manager.py, lines 45-53): build the
`Scene` from the captured states, register it under its fresh id, and
return it.  (`save_scene` serialises the current byte values to disk; disk
persistence is outside the embedding.) -/
def create_scene (st : SysState) (name : String) : Scene × SysState :=
  ({ id := st.next_id, name := name, fixture_states := capturedStates st },
   { st with
     scenes := st.scenes ++
       [(st.next_id, { id := st.next_id, name := name, fixture_states := capturedStates st })],
     next_id := st.next_id + 1 })

/-- One iteration of the `SceneManager.apply_scene` loop (scene_manager.py,
lines 79-82): when a live fixture with the stored id exists, rebind its
`channel_values` attribute to the scene's stored byte array (a reference
assignment, not a copy). -/
def applySceneEntry (st : SysState) (fixture_id : Nat) (r : Ref) : SysState :=
  if (dictFind st.patched_fixtures fixture_id).isSome then
    { st with patched_fixtures :=
        (st.patched_fixtures.map
          (fun p => if p.1 == fixture_id then (p.1, { p.2 with channel_values := r }) else p)) }
  else st

/-- `SceneManager.apply_scene` (scene_manager.py, lines 78-82): ids with no
live fixture are silently skipped; no length check is made against the
target's current definition. -/
def apply_scene (st : SysState) (scene : Scene) : SysState :=
  scene.fixture_states.foldl (fun s q => applySceneEntry s q.1 q.2) st

/-- The allocation loop of `Scene.from_dict` (scene_manager.py, line 24):
`bytearray(v)` copies each stored list into a fresh byte array, raising
`ValueError` when an entry is outside 0..255. -/
def allocStates : List (Nat × ByteArr) → Heap → Except Unit (List (Nat × Ref) × Heap)
  | [], heap => .ok ([], heap)
  | q :: rest, heap =>
      if q.2.all (fun b => b ≤ 255) then
        match allocStates rest (heap ++ [q.2]) with
        | .error e => .error e
        | .ok r => .ok ((q.1, heap.length) :: r.1, r.2)
      else .error ()

/-- `Scene.from_dict` (scene_manager.py, lines 22-27): rebuild a scene from
its persisted record, allocating a fresh byte array per stored fixture
state. -/
def Scene.from_dict (scene_id : Nat) (name : String) (states : List (Nat × ByteArr))
    (heap : Heap) : Except Unit (Scene × Heap) :=
  match allocStates states heap with
  | .error e => .error e
  | .ok r => .ok ({ id := scene_id, name := name, fixture_states := r.1 }, r.2)

/-- A foreground channel edit:
`fixture_manager.get_patched_fixture_by_id(fid).set_channel_value_by_offset(...)`,
as the UI and MIDI layers perform it. -/
def set_fixture_channel (st : SysState) (fixture_id : Nat) (offset value : Int) :
    Except Unit SysState :=
  match get_patched_fixture_by_id st fixture_id with
  | none => .error ()
  | some pf =>
      match pf.set_channel_value_by_offset st.heap offset value with
      | .error e => .error e
      | .ok heap2 => .ok { st with heap := heap2 }

/-- A sequence of foreground channel edits on one fixture. -/
def setChannelsSeq (st : SysState) (fixture_id : Nat) : List (Int × Int) → Except Unit SysState
  | [] => .ok st
  | q :: rest =>
      match set_fixture_channel st fixture_id q.1 q.2 with
      | .error e => .error e
      | .ok st2 => setChannelsSeq st2 fixture_id rest

/-- Observation: the byte values a live fixture's `channel_values` array
currently holds. -/
def fixtureValues (st : SysState) (fixture_id : Nat) : Option ByteArr :=
  (get_patched_fixture_by_id st fixture_id).map (fun pf => heapGet st.heap pf.channel_values)

/-- Observation: the byte values behind a scene's stored state for one
fixture id. -/
def sceneStoredValues (st : SysState) (scene : Scene) (fixture_id : Nat) : Option ByteArr :=
  (dictFind scene.fixture_states fixture_id).map (fun r => heapGet st.heap r)

/-- The overlay loop of `FixtureManager.apply_patch_to_dmx_controller`
(fixture_manager.py, lines 189-191): each `(abs_address, value)` pair with
`1 <= abs_address <= 512` is written at `desired[abs_address - 1]`. -/
def overlayDmx : List (Int × Nat) → List Nat → List Nat
  | [], desired => desired
  | q :: rest, desired =>
      overlayDmx rest
        (if 1 ≤ q.1 ∧ q.1 ≤ 512 then desired.set (q.1 - 1).toNat q.2 else desired)

/-- The per-fixture loop of `FixtureManager.apply_patch_to_dmx_controller`
(fixture_manager.py, lines 187-191). -/
def composeLoop (heap : Heap) : List PatchedFixture → List Nat → Except Unit (List Nat)
  | [], desired => .ok desired
  | pf :: rest, desired =>
      match pf.get_dmx_values heap with
      | .error e => .error e
      | .ok pairs => composeLoop heap rest (overlayDmx pairs desired)

/-- `FixtureManager.apply_patch_to_dmx_controller` (fixture_manager.py,
lines 180-193): start from `bytearray(512)`, overlay every live fixture's
byte values at its address range; the composed 512-byte state is then handed
to the engine in one call, `dmx_controller.set_channels(1, list(desired))`. -/
def apply_patch_to_dmx_controller (st : SysState) : Except Unit (List Nat) :=
  composeLoop st.heap (st.patched_fixtures.map (fun p => p.2)) (List.replicate 512 0)

/-- Specification side: the address/value pairs `get_dmx_values` yields for
a fixture whose byte array matches its channel count and whose range lies
within the universe. -/
def fixturePairs (pf : PatchedFixture) (heap : Heap) : List (Int × Nat) :=
  (List.range pf.definition.total_channels.toNat).map
    (fun (j : Nat) =>
      (pf.start_address + (j : Int), (heapGet heap pf.channel_values).getD j 0))

/-- Specification side: the pure composition of the desired universe state,
overlaying each fixture's pairs in list order. -/
def composePure (heap : Heap) (l : List PatchedFixture) (desired : List Nat) : List Nat :=
  l.foldl (fun acc pf => overlayDmx (fixturePairs pf heap) acc) desired

/-- The error taxonomy the specification assigns to patch failures. -/
inductive PatchError where
  | notFoundError
  | rangeError
  | addressConflictError
deriving DecidableEq

/-- Specification-side formulation of the patch operation, following the
claim's words: each failure is raised to the caller as a distinct error —
`NotFoundError` for an unresolvable definition, `RangeError` when the range
leaves the universe (including the constructor's address `ValueError`),
`AddressConflictError` on interval intersection — instead of a `None`
result.  Used to compare the claimed error reporting with the code's. -/
def add_fixture_to_patch_raising (st : SysState) (definition_identifier : String)
    (start_address : Int) (custom_name : Option String) :
    Except PatchError (PatchedFixture × SysState) :=
  match get_definition_by_identity st definition_identifier with
  | none => .error .notFoundError
  | some definition =>
      if start_address + definition.total_channels - 1 > 512 then .error .rangeError
      else if st.patched_fixtures.any (fun p =>
          conflictsWith start_address (start_address + definition.total_channels - 1) p.2) then
        .error .addressConflictError
      else
        match PatchedFixture.init definition start_address custom_name st.next_id st.heap with
        | .error _ => .error .rangeError
        | .ok r =>
            .ok (r.1, { st with heap := r.2,
                                patched_fixtures := st.patched_fixtures ++ [(r.1.id, r.1)],
                                next_id := st.next_id + 1 })

/-- The last 1-based address of a fixture's range,
`start_address + total_channels - 1`. -/
def fixtureEnd (pf : PatchedFixture) : Int :=
  pf.start_address + pf.definition.total_channels - 1

/-- Address `a` lies in the fixture's range `[start, start + len - 1]`. -/
def covers (pf : PatchedFixture) (a : Int) : Prop :=
  pf.start_address ≤ a ∧ a ≤ fixtureEnd pf

/-- Specification side: per-fixture well-formedness — the range lies within
1..512 and the byte array length matches the channel count. -/
def FixtureWF (heap : Heap) (pf : PatchedFixture) : Prop :=
  1 ≤ pf.start_address ∧ fixtureEnd pf ≤ 512 ∧
  ((heapGet heap pf.channel_values).length : Int) = pf.definition.total_channels

/-- The patch invariants: every live fixture's range lies within 1..512, and
no two distinct live fixtures' ranges share an address. -/
def PatchInvariant (st : SysState) : Prop :=
  (∀ p ∈ st.patched_fixtures, 1 ≤ p.2.start_address ∧ fixtureEnd p.2 ≤ 512) ∧
  st.patched_fixtures.Pairwise (fun p q => ¬ ∃ a : Int, covers p.2 a ∧ covers q.2 a)

/-- Heap well-formedness: every live fixture's reference is allocated and
its byte array has exactly `total_channels` entries. -/
def HeapWF (st : SysState) : Prop :=
  ∀ p ∈ st.patched_fixtures, p.2.channel_values < st.heap.length ∧
    ((heapGet st.heap p.2.channel_values).length : Int) = p.2.definition.total_channels

/-- Combined well-formedness of a manager state: the patch invariants plus
heap well-formedness. -/
def StateWF (st : SysState) : Prop := PatchInvariant st ∧ HeapWF st

/-- States reachable from a freshly constructed manager through the patch
and unpatch operations. -/
inductive Reachable : SysState → Prop where
  | init (fixture_directory : String) (defs : List (String × FixtureDefinition)) :
      Reachable (initialState fixture_directory defs)
  | patch (st : SysState) (identifier : String) (start_address : Int)
      (custom_name : Option String) : Reachable st →
      Reachable (add_fixture_to_patch st identifier start_address custom_name).2
  | unpatch (st : SysState) (fixture_id : Nat) : Reachable st →
      Reachable (remove_fixture_from_patch st fixture_id).2

/-- A four-channel fixture definition without individual channel entries
(an undifferentiated bank, so its live instances seed to zeros). -/
def rgbwDefinition : FixtureDefinition :=
  { name := "Generic RGBW", manufacturer := "Acme", type := "LED", total_channels := 4,
    channels := [], schema_version := "1.0", filepath := some "fixtures/rgbw.json" }

/-- Scenario, step 0: managers constructed with one loaded definition. -/
def scnState0 : SysState := initialState "fixtures" [("rgbw.json", rgbwDefinition)]

/-- Scenario, step 1: fixture A patched at address 1 (it receives id 0). -/
def scnState1 : SysState := (add_fixture_to_patch scnState0 "rgbw.json" 1 none).2

/-- Scenario, step 2: A's channels set to 10, 20, 30, 40. -/
def scnState2 : SysState :=
  (setChannelsSeq scnState1 0 [(0, 10), (1, 20), (2, 30), (3, 40)]).toOption.getD scnState1

/-- Scenario, step 3: scene "Warm Wash" captured (scene and post-capture
state). -/
def warmCapture : Scene × SysState := create_scene scnState2 "Warm Wash"

/-- The captured "Warm Wash" scene. -/
def warmScene : Scene := warmCapture.1

/-- Scenario, step 3: the state right after the capture. -/
def scnState3 : SysState := warmCapture.2

/-- Scenario, step 4: A mutated to 0, 0, 0, 0 after the capture. -/
def scnState4 : SysState :=
  (setChannelsSeq scnState3 0 [(0, 0), (1, 0), (2, 0), (3, 0)]).toOption.getD scnState3

/-- Scenario, step 5: the captured scene applied back. -/
def scnState5 : SysState := apply_scene scnState4 warmScene

/-- A persisted scene record holding, for fixture id 0, a 2-byte array —
shorter than the live fixture's `total_channels` (4) — loaded through
`Scene.from_dict` into the heap of `scnState1`. -/
def shortLoad : Scene × Heap :=
  (Scene.from_dict 99 "legacy" [(0, [7, 8])] scnState1.heap).toOption.getD
    (⟨99, "legacy", []⟩, scnState1.heap)

/-- The state after applying the loaded short-array scene to the patched
four-channel fixture. -/
def c10State : SysState :=
  apply_scene
    { scnState1 with heap := shortLoad.2, scenes := scnState1.scenes ++ [(99, shortLoad.1)] }
    shortLoad.1

end Toolstation

namespace Toolstation

/-! ## Theorems: Transmission Engine buffer -/

/-- Helper: with `1 ≤ start_channel`, a run of in-range values is written
starting at buffer index `start_channel + i - 1`. -/
theorem setChannelsLoop_all_ok (start_channel : Int) (hs : 1 ≤ start_channel) :
    ∀ (values : List Int) (buf : List Nat) (i : Nat),
      (∀ v ∈ values, 0 ≤ v ∧ v ≤ 255) →
      setChannelsLoop buf start_channel values i =
        .ok (overlayFrom buf (start_channel + (i : Int) - 1).toNat (values.map Int.toNat)) := by
  intro values
  induction values with
  | nil => intro buf i _; simp [setChannelsLoop, overlayFrom]
  | cons v rest ih =>
      intro buf i h
      have hv : 0 ≤ v ∧ v ≤ 255 := h v (by simp)
      have hidx : (start_channel + ((i + 1 : Nat) : Int) - 1).toNat
          = (start_channel + (i : Int) - 1).toNat + 1 := by omega
      simp only [setChannelsLoop, if_pos hv, List.map_cons, overlayFrom]
      rw [ih _ (i + 1) (fun v hv => h v (by simp [hv])), hidx]

/-- Helper: with `1 ≤ start_channel`, a run of in-range values followed by an
out-of-range value raises after writing the in-range run. -/
theorem setChannelsLoop_bad_value (start_channel : Int) (hs : 1 ≤ start_channel) :
    ∀ (good : List Int) (bad : Int) (rest : List Int) (buf : List Nat) (i : Nat),
      (∀ v ∈ good, 0 ≤ v ∧ v ≤ 255) → ¬ (0 ≤ bad ∧ bad ≤ 255) →
      setChannelsLoop buf start_channel (good ++ bad :: rest) i =
        .rangeError (overlayFrom buf (start_channel + (i : Int) - 1).toNat (good.map Int.toNat)) := by
  intro good
  induction good with
  | nil => intro bad rest buf i _ hbad; simp [setChannelsLoop, overlayFrom, hbad]
  | cons v g ih =>
      intro bad rest buf i h hbad
      have hv : 0 ≤ v ∧ v ≤ 255 := h v (by simp)
      have hidx : (start_channel + ((i + 1 : Nat) : Int) - 1).toNat
          = (start_channel + (i : Int) - 1).toNat + 1 := by omega
      simp only [List.cons_append, setChannelsLoop, if_pos hv, List.map_cons, overlayFrom,
        List.append_eq]
      rw [ih bad rest _ (i + 1) (fun v hv => h v (by simp [hv])) hbad, hidx]

/-- Helper: the sender's write loop, in-range run (writes start at buffer
index `start_channel + i`, index 0 being the start code). -/
theorem senderSetChannelsLoop_all_ok (start_channel : Int) (hs : 1 ≤ start_channel) :
    ∀ (values : List Int) (buf : List Nat) (i : Nat),
      (∀ v ∈ values, 0 ≤ v ∧ v ≤ 255) →
      senderSetChannelsLoop buf start_channel values i =
        .ok (overlayFrom buf (start_channel + (i : Int)).toNat (values.map Int.toNat)) := by
  intro values
  induction values with
  | nil => intro buf i _; simp [senderSetChannelsLoop, overlayFrom]
  | cons v rest ih =>
      intro buf i h
      have hv : 0 ≤ v ∧ v ≤ 255 := h v (by simp)
      have hidx : (start_channel + ((i + 1 : Nat) : Int)).toNat
          = (start_channel + (i : Int)).toNat + 1 := by omega
      simp only [senderSetChannelsLoop, if_pos hv, List.map_cons, overlayFrom]
      rw [ih _ (i + 1) (fun v hv => h v (by simp [hv])), hidx]

/-- Helper: the sender's write loop, out-of-range value after an in-range run. -/
theorem senderSetChannelsLoop_bad_value (start_channel : Int) (hs : 1 ≤ start_channel) :
    ∀ (good : List Int) (bad : Int) (rest : List Int) (buf : List Nat) (i : Nat),
      (∀ v ∈ good, 0 ≤ v ∧ v ≤ 255) → ¬ (0 ≤ bad ∧ bad ≤ 255) →
      senderSetChannelsLoop buf start_channel (good ++ bad :: rest) i =
        .rangeError (overlayFrom buf (start_channel + (i : Int)).toNat (good.map Int.toNat)) := by
  intro good
  induction good with
  | nil => intro bad rest buf i _ hbad; simp [senderSetChannelsLoop, overlayFrom, hbad]
  | cons v g ih =>
      intro bad rest buf i h hbad
      have hv : 0 ≤ v ∧ v ≤ 255 := h v (by simp)
      have hidx : (start_channel + ((i + 1 : Nat) : Int)).toNat
          = (start_channel + (i : Int)).toNat + 1 := by omega
      simp only [List.cons_append, senderSetChannelsLoop, if_pos hv, List.map_cons, overlayFrom,
        List.append_eq]
      rw [ih bad rest _ (i + 1) (fun v hv => h v (by simp [hv])) hbad, hidx]

/-- Claim C3, counterexample: `DMXController.set_channels` on the all-zero
buffer with start 1 and values `[5, 300]` raises the range error for the
out-of-range value 300, but channel 1 has already been written (5): the
universe buffer is not left unchanged.  The claim, as stated, is false. -/
theorem C3_counterexample :
    DMXController.set_channels zeros512 1 [5, 300] = .rangeError (zeros512.set 0 5) ∧
    zeros512.set 0 5 ≠ zeros512 := by
  constructor
  · rfl
  · decide

/-- Claim C3 (amended): an out-of-range start address, or a range extending
past channel 512, fails with a range error before any write and leaves the
buffer unchanged, in both `DMXController.set_channels` and
`DMXSender.set_channels`; when every value is in range the whole run is
written; but an out-of-range value is only detected when the write loop
reaches it, so the call fails with a range error with the values at the
earlier indices already written into the buffer. -/
theorem C3_set_channels_range_checked (buf : List Nat) (start_channel : Int)
    (values : List Int) :
    (¬ (1 ≤ start_channel ∧ start_channel ≤ 512) →
      DMXController.set_channels buf start_channel values = .rangeError buf ∧
      DMXSender.set_channels buf start_channel values = .rangeError buf) ∧
    ((1 ≤ start_channel ∧ start_channel ≤ 512) → values ≠ [] →
      start_channel + (values.length : Int) - 1 > 512 →
      DMXController.set_channels buf start_channel values = .rangeError buf ∧
      DMXSender.set_channels buf start_channel values = .rangeError buf) ∧
    ((1 ≤ start_channel ∧ start_channel ≤ 512) →
      ¬ start_channel + (values.length : Int) - 1 > 512 →
      (∀ v ∈ values, 0 ≤ v ∧ v ≤ 255) →
      DMXController.set_channels buf start_channel values =
        .ok (if values.isEmpty then buf
             else overlayFrom buf (start_channel - 1).toNat (values.map Int.toNat)) ∧
      DMXSender.set_channels buf start_channel values =
        .ok (if values.isEmpty then buf
             else overlayFrom buf start_channel.toNat (values.map Int.toNat))) ∧
    (∀ good bad rest, values = good ++ bad :: rest →
      (1 ≤ start_channel ∧ start_channel ≤ 512) →
      ¬ start_channel + (values.length : Int) - 1 > 512 →
      (∀ v ∈ good, 0 ≤ v ∧ v ≤ 255) → ¬ (0 ≤ bad ∧ bad ≤ 255) →
      DMXController.set_channels buf start_channel values =
        .rangeError (overlayFrom buf (start_channel - 1).toNat (good.map Int.toNat)) ∧
      DMXSender.set_channels buf start_channel values =
        .rangeError (overlayFrom buf start_channel.toNat (good.map Int.toNat))) := by
  refine ⟨?_, ?_, ?_, ?_⟩
  · intro h
    constructor
    · unfold DMXController.set_channels
      rw [if_pos h]
    · unfold DMXSender.set_channels
      rw [if_pos h]
  · intro h hne hgt
    constructor
    · unfold DMXController.set_channels
      rw [if_neg (not_not_intro h), if_neg (by simp [hne]), if_pos hgt]
    · unfold DMXSender.set_channels
      rw [if_neg (not_not_intro h), if_neg (by simp [hne]), if_pos hgt]
  · intro h hle hall
    by_cases he : values.isEmpty
    · constructor
      · unfold DMXController.set_channels
        rw [if_neg (not_not_intro h), if_pos he, if_pos he]
      · unfold DMXSender.set_channels
        rw [if_neg (not_not_intro h), if_pos he, if_pos he]
    · constructor
      · unfold DMXController.set_channels
        rw [if_neg (not_not_intro h), if_neg he, if_neg hle, if_neg he,
          setChannelsLoop_all_ok start_channel h.1 values buf 0 hall]
        simp
      · unfold DMXSender.set_channels
        rw [if_neg (not_not_intro h), if_neg he, if_neg hle, if_neg he,
          senderSetChannelsLoop_all_ok start_channel h.1 values buf 0 hall]
        simp
  · intro good bad rest hv h hle hgood hbad
    subst hv
    have hne : ¬ (good ++ bad :: rest).isEmpty = true := by simp
    constructor
    · unfold DMXController.set_channels
      rw [if_neg (not_not_intro h), if_neg hne, if_neg hle,
        setChannelsLoop_bad_value start_channel h.1 good bad rest buf 0 hgood hbad]
      simp
    · unfold DMXSender.set_channels
      rw [if_neg (not_not_intro h), if_neg hne, if_neg hle,
        senderSetChannelsLoop_bad_value start_channel h.1 good bad rest buf 0 hgood hbad]
      simp

/-- Witness for C3 (amended): an out-of-range start address leaves the
buffer unchanged, while an out-of-range value in the second position is
detected only after channel 1 has been written. -/
theorem C3_witness :
    DMXController.set_channels zeros512 600 [7] = .rangeError zeros512 ∧
    DMXController.set_channels zeros512 1 ([5] ++ 300 :: []) =
      .rangeError (overlayFrom zeros512 ((1 : Int) - 1).toNat (List.map Int.toNat [5])) :=
  ⟨((C3_set_channels_range_checked zeros512 600 [7]).1 (by decide)).1,
   ((C3_set_channels_range_checked zeros512 1 ([5] ++ 300 :: [])).2.2.2 [5] 300 [] rfl
      (by decide) (by decide) (by decide) (by decide)).1⟩

/-! ## Theorems: fixture definition parsing -/

/-- Helper: a successful channel parse preserves the entry count. -/
theorem parseChannelList_length :
    ∀ (l : List RawChannel) (out : List FixtureChannel),
      parseChannelList l = .ok out → out.length = l.length := by
  intro l
  induction l with
  | nil => intro out h; cases h; rfl
  | cons ch rest ih =>
      intro out h
      unfold parseChannelList at h
      cases hc : parseChannel ch with
      | error e => rw [hc] at h; cases h
      | ok c =>
          rw [hc] at h
          cases hr : parseChannelList rest with
          | error e => rw [hr] at h; cases h
          | ok cs => rw [hr] at h; cases h; simp [ih cs hr]

/-- Claim C4, counterexample: a record whose `channels` key is present with
an empty list and whose `total_channels` is 0 is accepted by
`FixtureDefinition.from_json_file`, not rejected: the length check
`len(parsed_channels) == total_channels` passes (0 = 0) and the
`total_channels > 0` requirement applies only when the `channels` key is
absent.  The accepted definition has an empty channel list and
`total_channels = 0`, so the claim, as stated, is false. -/
theorem C4_counterexample :
    fixture_definition_from_data none emptyZeroRecord =
      .ok { name := "Empty Fixture", manufacturer := "Test Co", type := "Generic",
            total_channels := 0, channels := [], schema_version := "1.0",
            filepath := none } := by
  rfl

/-- Claim C4 (amended): when the `channels` key is supplied its parsed length
must equal `total_channels` (a validation error otherwise), and when the
`channels` key is absent `total_channels` must be strictly positive (a
validation error otherwise); consequently every accepted definition parsed
from a record without a `channels` key has `total_channels > 0`, but a
record whose `channels` key is present with an empty list and whose
`total_channels` is 0 is accepted, so an accepted definition with an empty
channel list can have `total_channels = 0`. -/
theorem C4_channels_validation (filepath : Option String) (data : RawFixtureData) :
    (∀ d, fixture_definition_from_data filepath data = .ok d →
      (data.channels ≠ none → (d.channels.length : Int) = d.total_channels) ∧
      (data.channels = none → 0 < d.total_channels ∧ d.channels = [])) ∧
    (∀ chs t, data.channels = some chs → data.total_channels = some t →
      (chs.length : Int) ≠ t →
      fixture_definition_from_data filepath data = .error ()) ∧
    (∀ t, data.channels = none → data.total_channels = some t → t ≤ 0 →
      fixture_definition_from_data filepath data = .error ()) := by
  refine ⟨?_, ?_, ?_⟩
  · intro d hd
    unfold fixture_definition_from_data at hd
    cases hpc : parseChannelList (data.channels.getD []) with
    | error e => rw [hpc] at hd; simp at hd
    | ok parsed =>
        rw [hpc] at hd
        cases hname : data.name with
        | none => rw [hname] at hd; simp at hd
        | some fixture_name =>
            rw [hname] at hd
            dsimp only at hd
            by_cases hfn : fixture_name = ""
            · rw [if_pos hfn] at hd; simp at hd
            · rw [if_neg hfn] at hd
              cases htc : data.total_channels with
              | none => rw [htc] at hd; simp at hd
              | some total_channels =>
                  rw [htc] at hd
                  dsimp only at hd
                  by_cases hch : data.channels = none
                  · rw [if_neg (not_not_intro hch)] at hd
                    by_cases ht : total_channels ≤ 0
                    · rw [if_pos ht] at hd; simp at hd
                    · rw [if_neg ht] at hd
                      simp only [Except.ok.injEq] at hd
                      subst hd
                      refine ⟨fun hcc => absurd hch hcc,
                        fun _ => ⟨show (0 : Int) < total_channels by omega, ?_⟩⟩
                      have : data.channels.getD [] = [] := by rw [hch]; rfl
                      rw [this] at hpc
                      cases hpc
                      rfl
                  · rw [if_pos hch] at hd
                    by_cases hl : (parsed.length : Int) ≠ total_channels
                    · rw [if_pos hl] at hd; simp at hd
                    · rw [if_neg hl] at hd
                      simp only [Except.ok.injEq] at hd
                      subst hd
                      exact ⟨fun _ => not_not.mp hl, fun hcc => absurd hcc hch⟩
  · intro chs t hch htc hlen
    unfold fixture_definition_from_data
    rw [hch, htc]
    simp only [Option.getD_some]
    cases hpc : parseChannelList chs with
    | error e => rfl
    | ok parsed =>
        cases hname : data.name with
        | none => rfl
        | some fixture_name =>
            dsimp only
            by_cases hfn : fixture_name = ""
            · rw [if_pos hfn]
            · rw [if_neg hfn, if_pos (by simp : (some chs : Option (List RawChannel)) ≠ none),
                if_pos (by rw [parseChannelList_length chs parsed hpc]; exact hlen)]
  · intro t hch htc ht
    unfold fixture_definition_from_data
    rw [hch, htc]
    simp only [Option.getD_none]
    cases hpc : parseChannelList [] with
    | error e => rfl
    | ok parsed =>
        cases hname : data.name with
        | none => rfl
        | some fixture_name =>
            dsimp only
            by_cases hfn : fixture_name = ""
            · rw [if_pos hfn]
            · rw [if_neg hfn, if_neg (by simp : ¬ (none : Option (List RawChannel)) ≠ none),
                if_pos ht]

/-- Witness for C4 (amended): the stated-vs-defined channel count mismatch
record and the absent-`channels`, zero-`total_channels` record are both
rejected, and an accepted record without a `channels` key has a positive
`total_channels`. -/
theorem C4_witness :
    fixture_definition_from_data none mismatchRecord = .error () ∧
    fixture_definition_from_data none absentZeroRecord = .error () :=
  ⟨(C4_channels_validation none mismatchRecord).2.1
      (mismatchRecord.channels.getD []) 2 rfl rfl (by decide),
   (C4_channels_validation none absentZeroRecord).2.2 0 rfl rfl (by decide)⟩

/-! ## Theorems: chaser engine -/

/-- Helper: a started chaser has its running flag set, whatever it was. -/
theorem Chaser.start_is_running (c : Chaser) : (Chaser.start c).is_running = true := by
  unfold Chaser.start
  split
  · assumption
  · rfl

/-- Helper: full characterisation of `Chaser._run` for a running chaser with
a non-empty scene list: `k` iterations select the scene ids at positions
`current_step, current_step+1, ... (mod length)` and advance `current_step`
accordingly; the running flag is never modified by the loop itself. -/
theorem chaserIterate_schedule (k : Nat) :
    ∀ c : Chaser, c.is_running = true → c.scene_ids ≠ [] →
      c.current_step < c.scene_ids.length →
      chaserIterate k c =
        ({ c with current_step := (c.current_step + k) % c.scene_ids.length },
         (List.range k).map
           (fun t => c.scene_ids.getD ((c.current_step + t) % c.scene_ids.length) 0)) := by
  induction k with
  | zero =>
      intro c h1 h2 h3
      simp only [chaserIterate, Nat.add_zero, Nat.mod_eq_of_lt h3, List.range_zero,
        List.map_nil]
  | succ m ih =>
      intro c h1 h2 h3
      have hlen : 0 < c.scene_ids.length := List.length_pos.mpr h2
      have hrun : ¬ ¬ c.is_running = true := by simp [h1]
      have hne : ¬ c.scene_ids.isEmpty = true := by simp [List.isEmpty_iff, h2]
      unfold chaserIterate
      rw [if_neg hrun, if_neg hne]
      have h3' : (c.current_step + 1) % c.scene_ids.length < c.scene_ids.length :=
        Nat.mod_lt _ hlen
      rw [ih { c with current_step := (c.current_step + 1) % c.scene_ids.length } h1 h2 h3']
      refine Prod.ext ?_ ?_
      · simp only []
        congr 1
        rw [Nat.mod_add_mod]
        congr 1
        omega
      · simp only [List.range_succ_eq_map, List.map_cons, List.map_map]
        congr 1
        · rw [Nat.add_zero, Nat.mod_eq_of_lt h3]
        · refine List.map_congr_left ?_
          intro t _
          simp only [Function.comp_apply]
          rw [Nat.mod_add_mod]
          congr 2
          omega

/-- Claim C9: a chaser with `N` scenes, freshly started (so `current_step = 0`)
and running, selects and applies on its `k`-th loop iteration the scene at
index `k mod N`, advancing the index by one modulo `N` after each application
and sleeping `step_duration` between applications; idealising each iteration
to one step duration `d`, at elapsed time `T` the active iteration index is
`floor(T/d)`, hence the active scene index is `floor(T/d) mod N`. -/
theorem C9_chaser_schedule (c : Chaser) (k : Nat)
    (h1 : c.is_running = true) (h2 : c.current_step = 0) (h3 : c.scene_ids ≠ []) :
    (chaserIterate k c).2 =
      (List.range k).map (fun t => c.scene_ids.getD (t % c.scene_ids.length) 0) ∧
    (chaserIterate k c).1.current_step = k % c.scene_ids.length := by
  have h3' : c.current_step < c.scene_ids.length := by
    rw [h2]; exact List.length_pos.mpr h3
  rw [chaserIterate_schedule k c h1 h3 h3']
  constructor
  · simp [h2]
  · simp [h2]

/-- Witness for C9: the started three-scene chaser `demoChaser`, observed for
five iterations, applies the scenes at indices 0,1,2,0,1. -/
theorem C9_witness :
    (chaserIterate 5 demoChaser).2 =
      (List.range 5).map (fun t => demoChaser.scene_ids.getD (t % demoChaser.scene_ids.length) 0) ∧
    (chaserIterate 5 demoChaser).1.current_step = 5 % demoChaser.scene_ids.length :=
  C9_chaser_schedule demoChaser 5 (by decide) (by decide) (by decide)

/-- Claim C5, counterexample: a chaser created with an empty scene list and
started has its `_run` task exit immediately, but the chaser does not return
to the Idle state: the running flag `is_running` is still true after the task
has exited, and a subsequent `start()` is a no-op (it cannot transition the
chaser to Running again).  The claim, as stated, is false. -/
theorem C5_counterexample :
    (chaserIterate 5 (Chaser.start emptyChaser)).1.is_running = true ∧
    Chaser.start (chaserIterate 5 (Chaser.start emptyChaser)).1
      = (chaserIterate 5 (Chaser.start emptyChaser)).1 := by
  constructor
  · rfl
  · rfl

/-- Claim C5 (amended): for every chaser with an empty scene list, the
started chaser's `_run` task exits immediately (it applies no scene and
leaves the chaser state untouched), but the chaser stays flagged Running:
`is_running` remains true, so a subsequent `start()` is a no-op; only
`stop()` resets the flag to false (returning the chaser to Idle). -/
theorem C5_empty_scene_list (c : Chaser) (n : Nat) (h : c.scene_ids = []) :
    chaserIterate n (Chaser.start c) = (Chaser.start c, []) ∧
    (Chaser.start c).is_running = true ∧
    Chaser.start (Chaser.start c) = Chaser.start c ∧
    (Chaser.stop (Chaser.start c)).is_running = false := by
  have hrun := Chaser.start_is_running c
  have hids : (Chaser.start c).scene_ids = [] := by
    unfold Chaser.start; split <;> simp [h]
  refine ⟨?_, hrun, ?_, rfl⟩
  · cases n with
    | zero => rfl
    | succ m =>
        unfold chaserIterate
        rw [if_neg (by simp [hrun]), if_pos (by simp [List.isEmpty_iff, hids])]
  · by_cases hc : c.is_running = true
    · simp [Chaser.start, hc]
    · simp [Chaser.start, hc]

/-- Witness for C5 (amended), at the concrete empty-scene-list chaser. -/
theorem C5_witness :
    chaserIterate 3 (Chaser.start emptyChaser) = (Chaser.start emptyChaser, []) ∧
    (Chaser.start emptyChaser).is_running = true ∧
    Chaser.start (Chaser.start emptyChaser) = Chaser.start emptyChaser ∧
    (Chaser.stop (Chaser.start emptyChaser)).is_running = false :=
  C5_empty_scene_list emptyChaser 3 rfl

/-! ## Theorems: scene store (capture / apply) -/

/-- Claim C1, evaluation of the code at the specification's own scenario:
fixture A holds 10, 20, 30, 40 at capture time (`scnState2`); scene
"Warm Wash" is captured; A is mutated to 0, 0, 0, 0; applying the captured
scene leaves A at 0, 0, 0, 0 — not at the captured 10, 20, 30, 40.
`create_scene` stores the live bytearray by reference (scene_manager.py,
line 48), so the in-place mutation also rewrote the scene's snapshot, and
`apply_scene` rebinds A to that same array.  The code contradicts the
claimed round-trip, which the capture/apply design (and the persisted
record written at capture time) clearly intends: a code bug. -/
theorem C1_round_trip_eval :
    fixtureValues scnState2 0 = some [10, 20, 30, 40] ∧
    sceneStoredValues scnState3 warmScene 0 = some [10, 20, 30, 40] ∧
    fixtureValues scnState4 0 = some [0, 0, 0, 0] ∧
    fixtureValues scnState5 0 = some [0, 0, 0, 0] := by
  decide

/-- Claim C2, evaluation of the code at a failing input: after capturing
"Warm Wash" from A = 10, 20, 30, 40, mutating the live fixture through
`set_channel_value_by_offset` changes the scene's stored `fixture_states`
to 0, 0, 0, 0 — the scene stored the live bytearray's reference, not a
copy, and is not immutable once created.  The stored entry for A is
literally A's `channel_values` reference.  The code contradicts the claimed
deep-copy snapshot: a code bug. -/
theorem C2_capture_aliasing_eval :
    sceneStoredValues scnState3 warmScene 0 = some [10, 20, 30, 40] ∧
    sceneStoredValues scnState4 warmScene 0 = some [0, 0, 0, 0] ∧
    dictFind warmScene.fixture_states 0 =
      (get_patched_fixture_by_id scnState3 0).map (fun pf => pf.channel_values) := by
  decide

/-- Claim C10: after `apply_scene` rebinds the patched four-channel fixture
to a captured 2-byte array (loaded from a persisted scene record), offset 2
passes the bounds check against `definition.total_channels`, yet
`get_channel_value_by_offset`, `set_channel_value_by_offset` and
`get_dmx_values` all fail with the uncaught `IndexError` from indexing the
shorter array. -/
theorem C10_short_array_access :
    (get_patched_fixture_by_id c10State 0).map
        (fun pf => decide (0 ≤ (2 : Int) ∧ (2 : Int) < pf.definition.total_channels))
      = some true ∧
    (get_patched_fixture_by_id c10State 0).map
        (fun pf => heapGet c10State.heap pf.channel_values) = some [7, 8] ∧
    (get_patched_fixture_by_id c10State 0).map
        (fun pf => pf.get_channel_value_by_offset c10State.heap 2) = some (.error ()) ∧
    (get_patched_fixture_by_id c10State 0).map
        (fun pf => pf.set_channel_value_by_offset c10State.heap 2 5) = some (.error ()) ∧
    (get_patched_fixture_by_id c10State 0).map
        (fun pf => pf.get_dmx_values c10State.heap) = some (.error ()) :=
  ⟨rfl, rfl, rfl, rfl, rfl⟩

/-! ## Theorems: patch operation error reporting -/

/-- Claim C8, counterexample: patching with an unresolvable definition, with
a range that exceeds address 512, and at an address conflicting with the
fixture live at 1..4 all return the same caller-visible result — `None`
with the state unchanged.  No `NotFoundError` / `RangeError` /
`AddressConflictError` is raised to the caller (the specification-side
`add_fixture_to_patch_raising` shows the error each case would carry); the
failure is reported as a `None` return, so the claim, as stated, is false. -/
theorem C8_counterexample :
    add_fixture_to_patch_raising scnState1 "missing.json" 1 none = .error .notFoundError ∧
    add_fixture_to_patch_raising scnState1 "rgbw.json" 510 none = .error .rangeError ∧
    add_fixture_to_patch_raising scnState1 "rgbw.json" 2 none = .error .addressConflictError ∧
    add_fixture_to_patch scnState1 "missing.json" 1 none = (none, scnState1) ∧
    add_fixture_to_patch scnState1 "rgbw.json" 510 none = (none, scnState1) ∧
    add_fixture_to_patch scnState1 "rgbw.json" 2 none = (none, scnState1) := by
  decide

/-- Claim C8 (amended): every patch failure is reported synchronously as a
`None` result with the manager state unchanged (callers never see partial
success), and the failure conditions are exactly: an unresolvable
definition; `start + totalChannels - 1 > 512`; an interval intersection
`startAddress ≤ other.end AND end ≥ other.start` with some existing
instance; or the `PatchedFixture` constructor's `ValueError` (an address
below 1, a negative channel count, or an out-of-range default value). -/
theorem C8_patch_failure_result (st : SysState) (identifier : String)
    (start_address : Int) (custom_name : Option String) :
    ((add_fixture_to_patch st identifier start_address custom_name).1 = none ↔
      (get_definition_by_identity st identifier = none ∨
       ∃ d, get_definition_by_identity st identifier = some d ∧
         (start_address + d.total_channels - 1 > 512 ∨
          (∃ p ∈ st.patched_fixtures,
             start_address ≤ fixtureEnd p.2 ∧
             start_address + d.total_channels - 1 ≥ p.2.start_address) ∨
          PatchedFixture.init d start_address custom_name st.next_id st.heap = .error ()))) ∧
    ((add_fixture_to_patch st identifier start_address custom_name).1 = none →
      (add_fixture_to_patch st identifier start_address custom_name).2 = st) := by
  unfold add_fixture_to_patch
  cases hres : get_definition_by_identity st identifier with
  | none =>
      exact ⟨⟨fun _ => Or.inl rfl, fun _ => rfl⟩, fun _ => rfl⟩
  | some d =>
      dsimp only
      by_cases hrange : start_address + d.total_channels - 1 > 512
      · rw [if_pos hrange]
        exact ⟨⟨fun _ => Or.inr ⟨d, rfl, Or.inl hrange⟩, fun _ => rfl⟩, fun _ => rfl⟩
      · rw [if_neg hrange]
        by_cases hconf : st.patched_fixtures.any (fun p =>
            conflictsWith start_address (start_address + d.total_channels - 1) p.2) = true
        · rw [if_pos hconf]
          refine ⟨⟨fun _ => Or.inr ⟨d, rfl, Or.inr (Or.inl ?_)⟩, fun _ => rfl⟩, fun _ => rfl⟩
          obtain ⟨p, hp, hc⟩ := List.any_eq_true.mp hconf
          refine ⟨p, hp, ?_, ?_⟩
          · have := (Bool.and_eq_true _ _).mp hc
            exact of_decide_eq_true this.1
          · have := (Bool.and_eq_true _ _).mp hc
            exact of_decide_eq_true this.2
        · rw [if_neg hconf]
          cases hinit : PatchedFixture.init d start_address custom_name st.next_id st.heap with
          | error e =>
              dsimp only
              refine ⟨⟨fun _ => Or.inr ⟨d, rfl, Or.inr (Or.inr ?_)⟩, fun _ => rfl⟩, fun _ => rfl⟩
              cases e
              exact hinit
          | ok r =>
              dsimp only
              constructor
              · constructor
                · intro h
                  simp at h
                · rintro (h | ⟨d2, hd2, h1 | h2 | h3⟩)
                  · cases h
                  · cases hd2
                    exact absurd h1 hrange
                  · cases hd2
                    refine absurd ?_ hconf
                    obtain ⟨p, hp, ha, hb⟩ := h2
                    refine List.any_eq_true.mpr ⟨p, hp, ?_⟩
                    unfold conflictsWith
                    rw [Bool.and_eq_true, decide_eq_true_iff, decide_eq_true_iff]
                    exact ⟨ha, hb⟩
                  · cases hd2
                    rw [hinit] at h3
                    cases h3
              · intro h
                simp at h

/-- Witness for C8 (amended): the not-found failure at a concrete state
leaves the manager state unchanged. -/
theorem C8_witness :
    (add_fixture_to_patch scnState1 "missing.json" 1 none).2 = scnState1 :=
  (C8_patch_failure_result scnState1 "missing.json" 1 none).2 (by decide)

/-! ## Theorems: patch invariants -/

/-- Helper: reading past an appended array is reading the original heap. -/
theorem heapGet_append_lt (heap : Heap) (arr : ByteArr) (r : Ref) (h : r < heap.length) :
    heapGet (heap ++ [arr]) r = heapGet heap r := by
  simp [heapGet, List.getD, List.getElem?_append_left h]

/-- Helper: reading the freshly appended array. -/
theorem heapGet_append_self (heap : Heap) (arr : ByteArr) :
    heapGet (heap ++ [arr]) heap.length = arr := by
  simp [heapGet, List.getD, List.getElem?_concat_length]

/-- Helper: seeding default values preserves the array length. -/
theorem seedChannelValues_length (total : Nat) :
    ∀ (chs : List FixtureChannel) (i : Nat) (arr out : ByteArr),
      seedChannelValues total chs i arr = .ok out → out.length = arr.length := by
  intro chs
  induction chs with
  | nil => intro i arr out h; cases h; rfl
  | cons ch rest ih =>
      intro i arr out h
      unfold seedChannelValues at h
      by_cases hi : i < total
      · rw [if_pos hi] at h
        by_cases hv : 0 ≤ ch.default_value ∧ ch.default_value ≤ 255
        · rw [if_pos hv] at h
          rw [ih (i + 1) _ out h, List.length_set]
        · rw [if_neg hv] at h
          cases h
      · rw [if_neg hi] at h
        exact ih (i + 1) arr out h

/-- Helper: inversion of a successful `PatchedFixture.__init__`: the fields
of the new fixture, the checked address bounds, and the heap extension by
one array of exactly `total_channels` bytes. -/
theorem PatchedFixture.init_ok (d : FixtureDefinition) (start_address : Int)
    (nm : Option String) (fresh_id : Nat) (heap : Heap) (r : PatchedFixture × Heap)
    (h : PatchedFixture.init d start_address nm fresh_id heap = .ok r) :
    r.1.id = fresh_id ∧ r.1.definition = d ∧ r.1.start_address = start_address ∧
    r.1.channel_values = heap.length ∧
    1 ≤ start_address ∧ start_address ≤ 513 - d.total_channels ∧ 0 ≤ d.total_channels ∧
    (∃ arr : ByteArr, r.2 = heap ++ [arr] ∧ arr.length = d.total_channels.toNat) := by
  unfold PatchedFixture.init at h
  by_cases hb : 1 ≤ start_address ∧ start_address ≤ 513 - d.total_channels
  · rw [if_neg (not_not_intro hb)] at h
    by_cases hneg : d.total_channels < 0
    · rw [if_pos hneg] at h
      cases h
    · rw [if_neg hneg] at h
      cases hseed : seedChannelValues d.total_channels.toNat d.channels 0
          (List.replicate d.total_channels.toNat 0) with
      | error e => rw [hseed] at h; cases h
      | ok arr =>
          rw [hseed] at h
          cases h
          refine ⟨rfl, rfl, rfl, rfl, hb.1, hb.2, by omega, arr, rfl, ?_⟩
          rw [seedChannelValues_length _ _ _ _ _ hseed, List.length_replicate]
  · rw [if_pos hb] at h
    cases h

/-- Helper: the initial manager state is well-formed. -/
theorem initialState_wf (fixture_directory : String)
    (defs : List (String × FixtureDefinition)) :
    StateWF (initialState fixture_directory defs) := by
  refine ⟨⟨?_, ?_⟩, ?_⟩
  · intro p hp; cases hp
  · exact List.Pairwise.nil
  · intro p hp; cases hp

/-- Helper: a successful patch preserves well-formedness; a failed one
leaves the state unchanged. -/
theorem add_fixture_to_patch_wf (st : SysState) (identifier : String)
    (start_address : Int) (custom_name : Option String) (hwf : StateWF st) :
    StateWF (add_fixture_to_patch st identifier start_address custom_name).2 := by
  unfold add_fixture_to_patch
  cases hres : get_definition_by_identity st identifier with
  | none => exact hwf
  | some d =>
      dsimp only
      by_cases hrange : start_address + d.total_channels - 1 > 512
      · rw [if_pos hrange]
        exact hwf
      · rw [if_neg hrange]
        by_cases hconf : st.patched_fixtures.any (fun p =>
            conflictsWith start_address (start_address + d.total_channels - 1) p.2) = true
        · rw [if_pos hconf]
          exact hwf
        · rw [if_neg hconf]
          cases hinit : PatchedFixture.init d start_address custom_name st.next_id st.heap with
          | error e => exact hwf
          | ok r =>
              dsimp only
              obtain ⟨-, hdef, hstart, href, hb1, hb2, htot, arr, hheap, harr⟩ :=
                PatchedFixture.init_ok d start_address custom_name st.next_id st.heap r hinit
              have hnoconf : ∀ p ∈ st.patched_fixtures,
                  ¬ (start_address ≤ fixtureEnd p.2 ∧
                     start_address + d.total_channels - 1 ≥ p.2.start_address) := by
                intro p hp hc
                refine absurd (List.any_eq_true.mpr ⟨p, hp, ?_⟩) hconf
                unfold conflictsWith
                rw [Bool.and_eq_true, decide_eq_true_iff, decide_eq_true_iff]
                exact ⟨hc.1, hc.2⟩
              refine ⟨⟨?_, ?_⟩, ?_⟩
              · intro p hp
                rcases List.mem_append.mp hp with hold | hnew
                · exact hwf.1.1 p hold
                · rcases List.mem_singleton.mp hnew with rfl
                  dsimp only
                  unfold fixtureEnd
                  rw [hdef, hstart]
                  omega
              · rw [List.pairwise_append]
                refine ⟨hwf.1.2, List.pairwise_singleton _ _, ?_⟩
                intro p hp q hq
                rcases List.mem_singleton.mp hq with rfl
                dsimp only
                rintro ⟨a, hc1, hc2⟩
                refine hnoconf p hp ?_
                unfold covers fixtureEnd at hc1 hc2
                unfold fixtureEnd
                rw [hdef, hstart] at hc2
                omega
              · intro p hp
                rcases List.mem_append.mp hp with hold | hnew
                · obtain ⟨hlt, hlen⟩ := hwf.2 p hold
                  constructor
                  · show p.2.channel_values < r.2.length
                    rw [hheap, List.length_append, List.length_singleton]
                    exact Nat.lt_succ_of_lt hlt
                  · show ((heapGet r.2 p.2.channel_values).length : Int) = _
                    rw [hheap, heapGet_append_lt st.heap arr p.2.channel_values hlt]
                    exact hlen
                · rcases List.mem_singleton.mp hnew with rfl
                  constructor
                  · show r.1.channel_values < r.2.length
                    rw [hheap, href, List.length_append, List.length_singleton]
                    exact Nat.lt_succ_self _
                  · show ((heapGet r.2 r.1.channel_values).length : Int) = r.1.definition.total_channels
                    rw [hheap, href, heapGet_append_self, hdef]
                    omega

/-- Helper: unpatching preserves well-formedness. -/
theorem remove_fixture_from_patch_wf (st : SysState) (fixture_id : Nat)
    (hwf : StateWF st) :
    StateWF (remove_fixture_from_patch st fixture_id).2 := by
  unfold remove_fixture_from_patch
  by_cases hmem : (dictFind st.patched_fixtures fixture_id).isSome
  · rw [if_pos hmem]
    have hsub : (st.patched_fixtures.filter (fun p => !(p.1 == fixture_id))).Sublist
        st.patched_fixtures := List.filter_sublist _
    refine ⟨⟨?_, ?_⟩, ?_⟩
    · intro p hp
      exact hwf.1.1 p (hsub.mem hp)
    · exact hwf.1.2.sublist hsub
    · intro p hp
      exact hwf.2 p (hsub.mem hp)
  · rw [if_neg hmem]
    exact hwf

/-- Helper: every reachable state is well-formed. -/
theorem reachable_wf (st : SysState) (h : Reachable st) : StateWF st := by
  induction h with
  | init fixture_directory defs => exact initialState_wf fixture_directory defs
  | patch st identifier start_address custom_name _ ih =>
      exact add_fixture_to_patch_wf st identifier start_address custom_name ih
  | unpatch st fixture_id _ ih =>
      exact remove_fixture_from_patch_wf st fixture_id ih

/-- Claim C6: in every state reachable through the patch and unpatch
operations, every live `PatchedFixture` satisfies `1 ≤ start_address` and
`start_address + total_channels - 1 ≤ 512`, and no two distinct live
fixtures' address ranges `[start, start + len - 1]` share an address. -/
theorem C6_patch_invariant (st : SysState) (h : Reachable st) : PatchInvariant st :=
  (reachable_wf st h).1

/-- Witness for C6: the invariant at the concrete reachable state with one
fixture patched at 1..4. -/
theorem C6_witness : PatchInvariant scnState1 :=
  C6_patch_invariant scnState1
    (Reachable.patch scnState0 "rgbw.json" 1 none
      (Reachable.init "fixtures" [("rgbw.json", rgbwDefinition)]))

/-! ## Theorems: universe composition -/

/-- Helper: the `get_dmx_values` loop succeeds and yields the pairs of the
remaining index range when every visited index has a legal absolute address
and lies inside the array. -/
theorem getDmxValuesLoop_ok (s : Int) (arr : ByteArr) :
    ∀ (m i : Nat),
      (∀ j : Nat, i ≤ j → j < i + m → s + (j : Int) ≤ 512 ∧ j < arr.length) →
      getDmxValuesLoop s arr i m =
        .ok ((List.range' i m).map (fun (j : Nat) => (s + (j : Int), arr.getD j 0))) := by
  intro m
  induction m with
  | zero => intro i h; simp [getDmxValuesLoop]
  | succ k ih =>
      intro i h
      have h0 := h i (le_refl i) (by omega)
      unfold getDmxValuesLoop
      rw [if_neg (by omega)]
      have hg : arr[i]? = some (arr.getD i 0) := by
        have he : arr[i]? = some arr[i] := List.getElem?_eq_getElem h0.2
        rw [he, List.getD_eq_getElem?_getD, he]
        rfl
      rw [hg]
      dsimp only
      rw [ih (i + 1) (fun j hj1 hj2 => h j (by omega) (by omega))]
      dsimp only
      rw [List.range'_succ, List.map_cons]

/-- Helper: for a well-formed fixture, `get_dmx_values` succeeds with its
address/value pairs. -/
theorem get_dmx_values_ok (pf : PatchedFixture) (heap : Heap) (hwf : FixtureWF heap pf) :
    pf.get_dmx_values heap = .ok (fixturePairs pf heap) := by
  obtain ⟨hb1, hb2, hlen⟩ := hwf
  unfold fixtureEnd at hb2
  unfold PatchedFixture.get_dmx_values fixturePairs
  rw [List.range_eq_range']
  refine getDmxValuesLoop_ok _ _ _ 0 ?_
  intro j h1 h2
  constructor <;> omega

/-- Helper: overlaying pairs preserves the buffer length. -/
theorem overlayDmx_length : ∀ (pairs : List (Int × Nat)) (desired : List Nat),
    (overlayDmx pairs desired).length = desired.length := by
  intro pairs
  induction pairs with
  | nil => intro d; rfl
  | cons q rest ih =>
      intro d
      unfold overlayDmx
      by_cases hc : 1 ≤ q.1 ∧ q.1 ≤ 512
      · rw [if_pos hc, ih, List.length_set]
      · rw [if_neg hc, ih]

/-- Helper: overlaying one fixture's consecutive segment of pairs writes the
fixture's bytes at the covered buffer indices and leaves every other index
unchanged. -/
theorem overlayDmx_segment_get (s : Int) (arr : ByteArr) (hs : 1 ≤ s) :
    ∀ (cnt base : Nat) (desired : List Nat) (m : Nat),
      desired.length = 512 →
      s + (base : Int) + (cnt : Int) - 1 ≤ 512 →
      (overlayDmx ((List.range' base cnt).map
          (fun (j : Nat) => (s + (j : Int), arr.getD j 0))) desired)[m]? =
        (if (s - 1).toNat + base ≤ m ∧ m < (s - 1).toNat + base + cnt
         then some (arr.getD (m - (s - 1).toNat) 0)
         else desired[m]?) := by
  intro cnt
  induction cnt with
  | zero =>
      intro base desired m hdes hbound
      rw [if_neg (by omega)]
      rfl
  | succ k ih =>
      intro base desired m hdes hbound
      rw [List.range'_succ, List.map_cons]
      show (overlayDmx _ (if 1 ≤ s + (base : Int) ∧ s + (base : Int) ≤ 512
          then desired.set (s + (base : Int) - 1).toNat (arr.getD base 0)
          else desired))[m]? = _
      rw [if_pos (by omega : 1 ≤ s + (base : Int) ∧ s + (base : Int) ≤ 512)]
      rw [ih (base + 1) _ m (by rw [List.length_set]; exact hdes) (by push_cast; omega)]
      by_cases h1 : (s - 1).toNat + (base + 1) ≤ m ∧ m < (s - 1).toNat + (base + 1) + k
      · rw [if_pos h1, if_pos (by omega)]
      · rw [if_neg h1]
        by_cases h2 : (s - 1).toNat + base ≤ m ∧ m < (s - 1).toNat + base + (k + 1)
        · have hm : m = (s - 1).toNat + base := by omega
          rw [if_pos h2]
          have hidx : (s + (base : Int) - 1).toNat = m := by omega
          rw [hidx, List.getElem?_set_self (by omega : m < desired.length),
            show m - (s - 1).toNat = base from by omega]
        · rw [if_neg h2,
            List.getElem?_set_ne (by omega : (s + (base : Int) - 1).toNat ≠ m)]

/-- Helper: the pure composition preserves the buffer length. -/
theorem composePure_length (heap : Heap) :
    ∀ (l : List PatchedFixture) (desired : List Nat),
      (composePure heap l desired).length = desired.length := by
  intro l
  induction l with
  | nil => intro d; rfl
  | cons pf rest ih =>
      intro d
      show (composePure heap rest (overlayDmx (fixturePairs pf heap) d)).length = d.length
      rw [ih, overlayDmx_length]

/-- Helper: a buffer index covered by no fixture in the list is left at its
initial value by the composition. -/
theorem composePure_get_uncovered (heap : Heap) :
    ∀ (l : List PatchedFixture) (desired : List Nat) (m : Nat),
      desired.length = 512 →
      (∀ pf ∈ l, FixtureWF heap pf) →
      (∀ pf ∈ l, ¬ ((pf.start_address - 1).toNat ≤ m ∧
          m < (pf.start_address - 1).toNat + pf.definition.total_channels.toNat)) →
      (composePure heap l desired)[m]? = desired[m]? := by
  intro l
  induction l with
  | nil => intro d m _ _ _; rfl
  | cons pf rest ih =>
      intro d m hdes hwf hunc
      obtain ⟨hb1, hb2, hlen⟩ := hwf pf (by simp)
      unfold fixtureEnd at hb2
      show (composePure heap rest (overlayDmx (fixturePairs pf heap) d))[m]? = d[m]?
      rw [ih _ m (by rw [overlayDmx_length]; exact hdes)
        (fun q hq => hwf q (by simp [hq])) (fun q hq => hunc q (by simp [hq]))]
      unfold fixturePairs
      rw [List.range_eq_range',
        overlayDmx_segment_get pf.start_address _ hb1 _ 0 d m hdes (by push_cast; omega),
        if_neg (by have := hunc pf (by simp); omega)]

/-- Helper: the buffer index covered by a fixture in the list receives that
fixture's byte, whatever the initial buffer, provided no other listed
fixture's range shares an address with it. -/
theorem composePure_get_covered (heap : Heap) :
    ∀ (l : List PatchedFixture) (desired : List Nat) (pf0 : PatchedFixture) (a : Int),
      desired.length = 512 →
      (∀ pf ∈ l, FixtureWF heap pf) →
      l.Pairwise (fun p q => ¬ ∃ x : Int, covers p x ∧ covers q x) →
      pf0 ∈ l → covers pf0 a →
      (composePure heap l desired)[(a - 1).toNat]? =
        some ((heapGet heap pf0.channel_values).getD (a - pf0.start_address).toNat 0) := by
  intro l
  induction l with
  | nil => intro d pf0 a _ _ _ hmem _; cases hmem
  | cons pf rest ih =>
      intro d pf0 a hdes hwf hpw hmem hcov
      obtain ⟨hb1, hb2, hlen⟩ := hwf pf (by simp)
      have hbE := hb2
      unfold fixtureEnd at hbE
      rw [List.pairwise_cons] at hpw
      show (composePure heap rest (overlayDmx (fixturePairs pf heap) d))[(a - 1).toNat]? = _
      rcases List.mem_cons.mp hmem with rfl | hmem2
      · -- pf0 is the head: its overlay writes the byte, and the remaining
        -- fixtures cannot cover `a`
        obtain ⟨hc1, hc2⟩ := hcov
        unfold fixtureEnd at hc2
        rw [composePure_get_uncovered heap rest _ _
            (by rw [overlayDmx_length]; exact hdes)
            (fun q hq => hwf q (by simp [hq])) ?_]
        · unfold fixturePairs
          rw [List.range_eq_range',
            overlayDmx_segment_get pf0.start_address _ hb1 _ 0 d _ hdes (by push_cast; omega),
            if_pos (by omega),
            show (a - 1).toNat - (pf0.start_address - 1).toNat
                = (a - pf0.start_address).toNat from by omega]
        · intro q hq hseg
          obtain ⟨qb1, qb2, qlen⟩ := hwf q (by simp [hq])
          unfold fixtureEnd at qb2
          refine hpw.1 q hq ⟨a, ⟨by omega, by unfold fixtureEnd; omega⟩,
            ⟨by omega, by unfold fixtureEnd; omega⟩⟩
      · exact ih _ pf0 a (by rw [overlayDmx_length]; exact hdes)
          (fun q hq => hwf q (by simp [hq])) hpw.2 hmem2 hcov

/-- Helper: for well-formed fixtures the compose loop never fails and equals
the pure composition. -/
theorem composeLoop_eq_pure (heap : Heap) :
    ∀ (l : List PatchedFixture) (desired : List Nat),
      (∀ pf ∈ l, FixtureWF heap pf) →
      composeLoop heap l desired = .ok (composePure heap l desired) := by
  intro l
  induction l with
  | nil => intro d _; rfl
  | cons pf rest ih =>
      intro d hwf
      unfold composeLoop
      rw [get_dmx_values_ok pf heap (hwf pf (by simp))]
      exact ih _ (fun q hq => hwf q (by simp [hq]))

/-- Helper: an address not covered by a well-formed fixture corresponds to a
buffer index outside that fixture's written segment. -/
theorem not_covers_segment (heap : Heap) (pf : PatchedFixture) (hwfpf : FixtureWF heap pf)
    (a : Int) (ha1 : 1 ≤ a) (hnc : ¬ covers pf a) :
    ¬ ((pf.start_address - 1).toNat ≤ (a - 1).toNat ∧
       (a - 1).toNat < (pf.start_address - 1).toNat + pf.definition.total_channels.toNat) := by
  obtain ⟨hb1, hb2, hlen⟩ := hwfpf
  unfold fixtureEnd at hb2
  intro hseg
  refine hnc ⟨by omega, ?_⟩
  show a ≤ fixtureEnd pf
  unfold fixtureEnd
  omega

/-- Claim C7: for a manager state satisfying the patch invariants (ranges
within 1..512, pairwise non-intersecting) whose byte arrays match their
channel counts, `apply_patch_to_dmx_controller` composes a 512-byte map
that reads 0 at every address covered by no live fixture and reads the
covering fixture's corresponding channel byte at every covered address; the
result is deterministic and independent of the iteration order over the
fixtures: any state with the same heap and a permutation of the live
fixtures composes the identical map. -/
theorem C7_compose_universe (st : SysState) (hinv : PatchInvariant st) (hwf : HeapWF st) :
    ∃ desired, apply_patch_to_dmx_controller st = .ok desired ∧ desired.length = 512 ∧
      (∀ a : Int, 1 ≤ a → a ≤ 512 →
        ((∀ p ∈ st.patched_fixtures, ¬ covers p.2 a) →
          desired[(a - 1).toNat]? = some 0) ∧
        (∀ p ∈ st.patched_fixtures, covers p.2 a →
          desired[(a - 1).toNat]? =
            some ((heapGet st.heap p.2.channel_values).getD
              (a - p.2.start_address).toNat 0))) ∧
      (∀ st2 : SysState, st2.heap = st.heap →
        st2.patched_fixtures.Perm st.patched_fixtures →
        apply_patch_to_dmx_controller st2 = apply_patch_to_dmx_controller st) := by
  have hfwf : ∀ pf ∈ st.patched_fixtures.map (fun p => p.2), FixtureWF st.heap pf := by
    intro pf hpf
    obtain ⟨p, hp, rfl⟩ := List.mem_map.mp hpf
    exact ⟨(hinv.1 p hp).1, (hinv.1 p hp).2, (hwf p hp).2⟩
  have hpw : (st.patched_fixtures.map (fun p => p.2)).Pairwise
      (fun p q => ¬ ∃ x : Int, covers p x ∧ covers q x) := by
    rw [List.pairwise_map]
    exact hinv.2
  have hmain : apply_patch_to_dmx_controller st =
      .ok (composePure st.heap (st.patched_fixtures.map (fun p => p.2))
        (List.replicate 512 0)) :=
    composeLoop_eq_pure st.heap _ _ hfwf
  have hrep : (List.replicate 512 (0 : Nat)).length = 512 := List.length_replicate 512 0
  refine ⟨composePure st.heap (st.patched_fixtures.map (fun p => p.2))
      (List.replicate 512 0),
    hmain,
    by rw [composePure_length, List.length_replicate], ?_, ?_⟩
  · intro a ha1 ha2
    constructor
    · intro hnone
      rw [composePure_get_uncovered st.heap _ _ _ hrep hfwf ?_]
      · have hlt : (a - 1).toNat < 512 := by omega
        rw [List.getElem?_replicate, if_pos hlt]
      · intro q hq
        obtain ⟨p, hp, rfl⟩ := List.mem_map.mp hq
        exact not_covers_segment st.heap p.2 (hfwf p.2 (List.mem_map.mpr ⟨p, hp, rfl⟩))
          a ha1 (hnone p hp)
    · intro p hp hcov
      exact composePure_get_covered st.heap _ _ p.2 a hrep hfwf hpw
        (List.mem_map.mpr ⟨p, hp, rfl⟩) hcov
  · intro st2 hh hperm
    unfold apply_patch_to_dmx_controller
    rw [hh]
    have hmap : (st2.patched_fixtures.map (fun p => p.2)).Perm
        (st.patched_fixtures.map (fun p => p.2)) := hperm.map _
    have hfwf2 : ∀ pf ∈ st2.patched_fixtures.map (fun p => p.2), FixtureWF st.heap pf :=
      fun pf hpf => hfwf pf (hmap.mem_iff.mp hpf)
    have hsym : ∀ {x y : PatchedFixture},
        (¬ ∃ c : Int, covers x c ∧ covers y c) → ¬ ∃ c : Int, covers y c ∧ covers x c :=
      fun h hc => h ⟨hc.choose, hc.choose_spec.2, hc.choose_spec.1⟩
    have hpw2 := (hmap.pairwise_iff hsym).mpr hpw
    rw [composeLoop_eq_pure st.heap _ _ hfwf2, composeLoop_eq_pure st.heap _ _ hfwf]
    refine congrArg Except.ok ?_
    apply List.ext_getElem?
    intro m
    by_cases hm : m < 512
    · have hmeq : (((m : Int) + 1) - 1).toNat = m := by omega
      by_cases hcov : ∃ p ∈ st.patched_fixtures, covers p.2 ((m : Int) + 1)
      · obtain ⟨p, hp, hc⟩ := hcov
        have e1 := composePure_get_covered st.heap
          (st2.patched_fixtures.map (fun p => p.2)) (List.replicate 512 0)
          p.2 ((m : Int) + 1) (List.length_replicate 512 0) hfwf2 hpw2
          (hmap.mem_iff.mpr (List.mem_map.mpr ⟨p, hp, rfl⟩)) hc
        have e2 := composePure_get_covered st.heap
          (st.patched_fixtures.map (fun p => p.2)) (List.replicate 512 0)
          p.2 ((m : Int) + 1) (List.length_replicate 512 0) hfwf hpw
          (List.mem_map.mpr ⟨p, hp, rfl⟩) hc
        rw [hmeq] at e1 e2
        rw [e1, e2]
      · push_neg at hcov
        have hseg2 : ∀ q ∈ st2.patched_fixtures.map (fun p => p.2),
            ¬ ((q.start_address - 1).toNat ≤ m ∧
               m < (q.start_address - 1).toNat + q.definition.total_channels.toNat) := by
          intro q hq
          obtain ⟨p, hp, rfl⟩ := List.mem_map.mp (hmap.mem_iff.mp hq)
          have := not_covers_segment st.heap p.2
            (hfwf p.2 (List.mem_map.mpr ⟨p, hp, rfl⟩)) ((m : Int) + 1) (by omega)
            (hcov p hp)
          rw [hmeq] at this
          exact this
        have hseg1 : ∀ q ∈ st.patched_fixtures.map (fun p => p.2),
            ¬ ((q.start_address - 1).toNat ≤ m ∧
               m < (q.start_address - 1).toNat + q.definition.total_channels.toNat) := by
          intro q hq
          exact hseg2 q (hmap.mem_iff.mpr hq)
        rw [composePure_get_uncovered st.heap _ _ m (List.length_replicate 512 0) hfwf2 hseg2,
          composePure_get_uncovered st.heap _ _ m (List.length_replicate 512 0) hfwf hseg1]
    · rw [List.getElem?_eq_none
          (by rw [composePure_length, List.length_replicate]; omega),
        List.getElem?_eq_none
          (by rw [composePure_length, List.length_replicate]; omega)]

/-- Witness for C7, at the concrete reachable state with one four-channel
fixture patched at 1..4; the invariants are discharged by the reachability
lemma. -/
theorem C7_witness :
    ∃ desired, apply_patch_to_dmx_controller scnState1 = .ok desired ∧
      desired.length = 512 ∧
      (∀ a : Int, 1 ≤ a → a ≤ 512 →
        ((∀ p ∈ scnState1.patched_fixtures, ¬ covers p.2 a) →
          desired[(a - 1).toNat]? = some 0) ∧
        (∀ p ∈ scnState1.patched_fixtures, covers p.2 a →
          desired[(a - 1).toNat]? =
            some ((heapGet scnState1.heap p.2.channel_values).getD
              (a - p.2.start_address).toNat 0))) ∧
      (∀ st2 : SysState, st2.heap = scnState1.heap →
        st2.patched_fixtures.Perm scnState1.patched_fixtures →
        apply_patch_to_dmx_controller st2 = apply_patch_to_dmx_controller scnState1) :=
  C7_compose_universe scnState1
    (reachable_wf scnState1
      (Reachable.patch scnState0 "rgbw.json" 1 none
        (Reachable.init "fixtures" [("rgbw.json", rgbwDefinition)]))).1
    (reachable_wf scnState1
      (Reachable.patch scnState0 "rgbw.json" 1 none
        (Reachable.init "fixtures" [("rgbw.json", rgbwDefinition)]))).2

end Toolstation
